import Mathlib

/-!
# TradeOps quote-to-job lifecycle: verified model

Shallow embedding of the quote/job lifecycle logic of the TradeOps repository:
the pricing recomputation (`crud.py`), the quote CRUD operations
(`crud.py` / `schemas.py`), the sqlite API layer (`main.py`), the CRM follow-up
layer (`tradeops_v3_db.py` / `startup_db.py`), the in-memory mock store
(`app.py`), and the quote-to-job conversion rule (spec §4.3, which has no code
under `src/`).

Money amounts (`Decimal` in `crud.py`, Python floats elsewhere) are modelled as
exact rationals `ℚ`; ISO date strings (`"YYYY-MM-DD"`, always compared and
ordered as text by the code) are modelled as `String`.
-/

namespace TradeOps

/-! ## crud.py / models.py / schemas.py - the SQLAlchemy API variant -/

namespace Crud

/-- One `quote_line_items` row (`models.QuoteLineItem`), as embedded in its
quote. The surrogate `id`/`quote_id` columns are omitted: items live inside the
quote that owns them. Numeric columns are nullable in the model, hence
`Option ℚ`. -/
structure QuoteLineItem where
  type : String
  code : Option String
  description : String
  qty : Option ℚ
  unit_cost : Option ℚ
  unit_price : Option ℚ
  position : ℕ
deriving DecidableEq

/-- A `quotes` row (`models.Quote`), restricted to the columns the lifecycle
logic reads or writes, with its line items embedded. -/
structure QuoteA where
  id : String
  account_id : String
  customer_id : String
  title : String
  status : String
  total_price : ℚ
  total_cost : ℚ
  margin_percent : ℚ
  line_items : List QuoteLineItem
  created_at : ℕ
  updated_at : ℕ
deriving DecidableEq

/-- Python `x or 0` on a nullable numeric column: `None ↦ 0`; on a number it is
the identity (`0 or 0` is `0`). -/
def pyOrZero (o : Option ℚ) : ℚ :=
  match o with
  | none => 0
  | some x => x

/-- One iteration of the accumulation loop in `crud._recalc_quote_totals`:
`total_cost += (li.unit_cost or 0) * (li.qty or 0)` and
`total_price += (li.unit_price or 0) * (li.qty or 0)`.
The accumulator is the pair `(total_cost, total_price)`. -/
def recalcStep (acc : ℚ × ℚ) (li : QuoteLineItem) : ℚ × ℚ :=
  (acc.1 + pyOrZero li.unit_cost * pyOrZero li.qty,
   acc.2 + pyOrZero li.unit_price * pyOrZero li.qty)

/-- `crud._recalc_quote_totals` (the leading underscore is dropped): folds the
accumulation loop over `quote.line_items` starting from `(0, 0)`, then stores
`total_cost`, `total_price` and
`margin_percent = (total_price - total_cost) / total_price * 100` when
`total_price > 0`, else `0`. -/
def recalc_quote_totals (q : QuoteA) : QuoteA :=
  let t := q.line_items.foldl recalcStep (0, 0)
  { q with
    total_cost := t.1
    total_price := t.2
    margin_percent := if t.2 > 0 then (t.2 - t.1) / t.2 * 100 else 0 }

/-- `schemas.QuoteLineItemIn` (pydantic input model for one line item). -/
structure QuoteLineItemIn where
  type : String
  code : Option String
  description : String
  qty : ℚ
  unit_cost : ℚ
  unit_price : ℚ
  position : ℕ
deriving DecidableEq

/-- `schemas.QuoteCreate`. Its declared fields are exactly `location_id`,
`customer_id`, `title`, `selling_tech_id`, `line_items`: the schema declares
no `status` field. -/
structure QuoteCreate where
  location_id : String
  customer_id : String
  title : String
  selling_tech_id : Option String
  line_items : List QuoteLineItemIn
deriving DecidableEq

/-- `schemas.QuoteUpdate`: every field optional; `None` means "not supplied". -/
structure QuoteUpdate where
  title : Option String
  status : Option String
  line_items : Option (List QuoteLineItemIn)
deriving DecidableEq

/-- Values a pydantic attribute read on a `QuoteCreate` can yield. -/
inductive PyVal where
  | str (s : String)
  | optStr (o : Option String)
  | items (l : List QuoteLineItemIn)
deriving DecidableEq

/-- pydantic attribute access on a `QuoteCreate` instance: a name resolves to
the value of the correspondingly declared field, and any other name yields
nothing (pydantic raises `AttributeError` for it). `schemas.QuoteCreate`
declares no `status` field, so `"status"` falls into the default branch. -/
def quoteCreateGetattr (d : QuoteCreate) : String → Option PyVal
  | "location_id" => some (.str d.location_id)
  | "customer_id" => some (.str d.customer_id)
  | "title" => some (.str d.title)
  | "selling_tech_id" => some (.optStr d.selling_tech_id)
  | "line_items" => some (.items d.line_items)
  | _ => none

/-- Result of a Python call that may raise `AttributeError`. -/
inductive PyResult (α : Type) where
  | ok (a : α)
  | attributeError (name : String)
deriving DecidableEq

/-- Building one `models.QuoteLineItem` row from input `li` at enumeration
index `idx`, as in `crud.create_quote` / `crud.update_quote`:
`position=li.position or idx` (Python `or`: a zero position falls back to the
index). -/
def buildLineItem (idx : ℕ) (li : QuoteLineItemIn) : QuoteLineItem :=
  { type := li.type
    code := li.code
    description := li.description
    qty := some li.qty
    unit_cost := some li.unit_cost
    unit_price := some li.unit_price
    position := if li.position = 0 then idx else li.position }

/-- `crud.create_quote`. The row constructor evaluates
`status=data.status or "draft"`: the attribute read of `status` on the
`QuoteCreate` instance is performed first, and since `schemas.QuoteCreate`
declares no such field the read yields nothing and the call raises
`AttributeError` before any row is written. The `some` branch spells out what
the rest of the function would do with a `status` value (Python `or`: a falsy
value falls back to `"draft"`). -/
def create_quote (account_id newId : String) (now : ℕ) (d : QuoteCreate) :
    PyResult QuoteA :=
  match quoteCreateGetattr d "status" with
  | none => .attributeError "status"
  | some v =>
      let st := match v with
        | .str s => if s = "" then "draft" else s
        | _ => "draft"
      .ok (recalc_quote_totals
        { id := newId
          account_id := account_id
          customer_id := d.customer_id
          title := d.title
          status := st
          total_price := 0
          total_cost := 0
          margin_percent := 0
          line_items := d.line_items.enum.map (fun p => buildLineItem p.1 p.2)
          created_at := now
          updated_at := now })

/-- The per-row effect of `crud.update_quote` on the quote it found:
`title`/`status` are overwritten only when supplied. When `line_items` is
supplied, the old rows are bulk-DELETEd immediately and the new ones only
added as pending (the session is built with `autoflush=False`), so the
`_recalc_quote_totals` call lazy-loads an **empty** `quote.line_items`
collection and stores zero totals, while the pending rows are inserted at
commit. The ORM's `onupdate` refreshes `updated_at` at commit exactly when the
row changed. -/
def apply_update (now : ℕ) (data : QuoteUpdate) (q : QuoteA) : QuoteA :=
  let q1 := match data.title with
    | none => q
    | some t => { q with title := t }
  let q2 := match data.status with
    | none => q1
    | some s => { q1 with status := s }
  let q3 := match data.line_items with
    | none => q2
    | some lis =>
        { recalc_quote_totals { q2 with line_items := [] } with
          line_items := lis.enum.map (fun p => buildLineItem p.1 p.2) }
  if q3 = q then q else { q3 with updated_at := now }

/-- `crud.update_quote`: looks the quote up by id; absent ⇒ returns `None` and
leaves the table unchanged; present ⇒ applies `apply_update` to that row
(rows are keyed by the primary key `id`). -/
def update_quote (now : ℕ) (quote_id : String) (data : QuoteUpdate)
    (db : List QuoteA) : Option QuoteA × List QuoteA :=
  match db.find? (fun x => x.id == quote_id) with
  | none => (none, db)
  | some q =>
      (some (apply_update now data q),
       db.map (fun x => if x.id == quote_id then apply_update now data x else x))

end Crud

/-! ## main.py - the sqlite/FastAPI variant (quotes double as jobs) -/

namespace MainApi

/-- `main.QuoteItem` (pydantic): one line of the `items_json` payload. -/
structure QuoteItem where
  id : String
  name : String
  qty : ℤ
  price : ℚ
deriving DecidableEq

/-- `main.QuoteIn`: the POST `/api/quotes` payload. The caller supplies the
`total` itself. -/
structure QuoteIn where
  customer_id : String
  items : List QuoteItem
  total : ℚ
  notes : String
deriving DecidableEq

/-- One row of the `quotes` table in `main.py` (`items_json` held as its parsed
item list; `scheduled_date`/`tech` are NULL until dispatch). -/
structure QuoteM where
  id : String
  customer_id : String
  status : String
  created_at : String
  items : List QuoteItem
  total : ℚ
  notes : String
  scheduled_date : Option String
  tech : Option String
deriving DecidableEq

/-- POST `/api/quotes` (`main.save_quote`): INSERT of a new row with
`status='Draft'` and the caller-supplied `items`/`total`/`notes`. `newId` is
the generated `Q-....` id, `today` the ISO date. -/
def save_quote (newId today : String) (quote : QuoteIn) (db : List QuoteM) :
    List QuoteM :=
  db ++ [{ id := newId
           customer_id := quote.customer_id
           status := "Draft"
           created_at := today
           items := quote.items
           total := quote.total
           notes := quote.notes
           scheduled_date := none
           tech := none }]

/-- PUT `/api/quotes/{id}/status` (`main.update_quote_status`):
`UPDATE quotes SET status=? WHERE id=?`, then the endpoint answers
`{"status": "updated"}` whether or not any row matched. -/
def update_quote_status (id status : String) (db : List QuoteM) :
    List QuoteM × String :=
  (db.map (fun q => if q.id == id then { q with status := status } else q), "updated")

/-- POST `/api/dispatch/assign` (`main.assign_job`):
`UPDATE quotes SET tech=?, scheduled_date=?, status='Scheduled' WHERE id=?`.
The status write is unconditional on the matched row. -/
def assign_job (quote_id tech_username scheduled_date : String)
    (db : List QuoteM) : List QuoteM × String :=
  (db.map (fun q =>
      if q.id == quote_id then
        { q with
          tech := some tech_username
          scheduled_date := some scheduled_date
          status := "Scheduled" }
      else q),
   "success")

/-- POST `/api/jobs/complete` (`main.complete_job`): overwrites
`items_json`/`total`/`notes` with the field-supplied values and sets
`status='Completed'` on the matched row. -/
def complete_job (job_id : String) (final_items : List QuoteItem) (total : ℚ)
    (notes : String) (db : List QuoteM) : List QuoteM × String :=
  (db.map (fun q =>
      if q.id == job_id then
        { q with items := final_items, total := total, notes := notes, status := "Completed" }
      else q),
   "success")

end MainApi

/-! ## tradeops_v3_db.py / startup_db.py - the CRM follow-up variant -/

namespace V3

/-- One cart-item dict `{name, type, cost, price, qty}` as used by
`save_new_quote` / `update_existing_quote` and the builder callbacks. -/
structure Item where
  name : String
  type : String
  cost : ℚ
  price : ℚ
  qty : ℚ
deriving DecidableEq

/-- A `customers` row (columns the follow-up queue reads). -/
structure Customer where
  customer_id : String
  name : String
  phone : String
deriving DecidableEq

/-- A `quotes` row of the CRM variant, with exactly the columns
`tradeops_v3_db.init_db` declares for the table. In particular there is **no**
`last_contact_at` column in this schema. -/
structure Quote where
  quote_id : String
  customer_id : String
  job_type : String
  estimator : String
  status : String
  created_at : String
  last_modified_at : String
  next_followup_date : String
  followup_status : String
  total_price : ℚ
  total_cost : ℚ
  margin_percent : ℚ
deriving DecidableEq

/-- The CRM database: `customers`, `quotes`, and the `quote_items` rows keyed
by their `quote_id`. -/
structure Db where
  customers : List Customer
  quotes : List Quote
  quote_items : List (String × Item)
deriving DecidableEq

/-- `tradeops_v3_db.save_new_quote`: computes
`total_cost = Σ cost·qty`, `total_price = Σ price·qty`,
`margin = (total_price-total_cost)/total_price·100 if total_price > 0 else 0`,
INSERTs the quote row with `status='Open'`, `followup_status='Needs Call'`
and the three dates set to today, then INSERTs one `quote_items` row per item.
`qid` is the generated id, `now` today's ISO date. -/
def save_new_quote (qid now cust_id job_type estimator : String)
    (items : List Item) (db : Db) : Db :=
  let total_cost := (items.map (fun i => i.cost * i.qty)).sum
  let total_price := (items.map (fun i => i.price * i.qty)).sum
  let margin := if total_price > 0 then (total_price - total_cost) / total_price * 100 else 0
  { db with
    quotes := db.quotes ++
      [{ quote_id := qid
         customer_id := cust_id
         job_type := job_type
         estimator := estimator
         status := "Open"
         created_at := now
         last_modified_at := now
         next_followup_date := now
         followup_status := "Needs Call"
         total_price := total_price
         total_cost := total_cost
         margin_percent := margin }]
    quote_items := db.quote_items ++ items.map (fun i => (qid, i)) }

/-- The `ORDER BY q.next_followup_date ASC` key relation on joined rows
(ISO date strings compare chronologically as text). -/
def fupLe (a b : Quote × Customer) : Prop :=
  a.1.next_followup_date ≤ b.1.next_followup_date

instance : DecidableRel fupLe :=
  fun a b => inferInstanceAs (Decidable (a.1.next_followup_date ≤ b.1.next_followup_date))

instance : IsTotal (Quote × Customer) fupLe :=
  ⟨fun a b => le_total a.1.next_followup_date b.1.next_followup_date⟩

instance : IsTrans (Quote × Customer) fupLe :=
  ⟨fun _ _ _ h h' => le_trans h h'⟩

/-- `tradeops_v3_db.get_followup_queue`:
`SELECT ... FROM quotes q JOIN customers c ON q.customer_id = c.customer_id
WHERE q.status = 'Open' ORDER BY q.next_followup_date ASC`. A result row is
modelled as the joined `(quote, customer)` pair carrying the selected columns
(`customer_id` is the primary key of `customers`, so the join matches at most
one customer per quote). -/
def get_followup_queue (db : Db) : List (Quote × Customer) :=
  let joined := db.quotes.filterMap (fun (q : Quote) =>
    (db.customers.find? (fun (c : Customer) => c.customer_id == q.customer_id)).map
      (fun c => (q, c)))
  (joined.filter (fun qc => qc.1.status == "Open")).insertionSort fupLe

/-- The columns of the `quotes` table as `tradeops_v3_db.init_db` creates it
(`tradeops_v4.db`; `startup_app.py` forces this `init_db` on startup, and
nothing ever ALTERs the table). -/
def quotesTableColumns : List String :=
  ["quote_id", "customer_id", "job_type", "estimator", "status", "created_at",
   "last_modified_at", "next_followup_date", "followup_status",
   "total_price", "total_cost", "margin_percent"]

/-- The columns named in the SET clause of `log_interaction`'s UPDATE
statement. -/
def logInteractionSetColumns : List String :=
  ["followup_status", "next_followup_date", "last_contact_at"]

/-- Result of executing a SQL statement that may fail to prepare
(`sqlite3.OperationalError`). -/
inductive SqlResult (α : Type) where
  | ok (a : α)
  | operationalError (msg : String)
deriving DecidableEq

/-- `tradeops_v3_db.log_interaction(quote_id, new_status, next_date)`:
`UPDATE quotes SET followup_status = ?, next_followup_date = ?,
last_contact_at = ? WHERE quote_id = ?`. sqlite prepares the statement
against the table schema before executing it: the SET clause names
`last_contact_at`, which is not among the v3 `quotes` columns, so preparation
raises `OperationalError` and **nothing is written** (the transaction is never
committed). The `ok` branch spells out the two representable column writes the
UPDATE would perform on the matching row if all named columns existed. -/
def log_interaction (quote_id new_status next_date : String) (db : Db) :
    SqlResult Db :=
  match logInteractionSetColumns.find? (fun c => !(quotesTableColumns.contains c)) with
  | some c => .operationalError ("no such column: " ++ c)
  | none =>
      .ok { db with
        quotes := db.quotes.map (fun q =>
          if q.quote_id == quote_id then
            { q with
              followup_status := new_status
              next_followup_date := next_date }
          else q) }

end V3

/-! ## startup_db.py - the versioned-quotes variant (tradeops_v2.db) -/

namespace Startup

/-- A `quotes` row of `startup_db.init_db`'s schema: keyed by
`(quote_id, version)`, with a denormalized `client_name` and - unlike the v3
schema - a `last_contact_at` column. -/
structure Quote where
  quote_id : String
  version : ℤ
  client_name : String
  job_type : String
  estimator : String
  status : String
  created_at : String
  last_contact_at : String
  next_followup_date : String
  followup_status : String
  total_price : ℚ
  total_cost : ℚ
  margin_percent : ℚ
deriving DecidableEq

/-- `startup_db.update_followup(quote_id, version, new_status, next_date_str)`:
`UPDATE quotes SET followup_status = :stat, next_followup_date = :nxt,
last_contact_at = :now WHERE quote_id = :qid AND version = :ver`, with `:now`
today's date (`now` here). This schema does carry `last_contact_at`, so the
write succeeds; no other column - in particular not `status` - is written. -/
def update_followup (now quote_id : String) (version : ℤ)
    (new_status next_date : String) (quotes : List Quote) : List Quote :=
  quotes.map (fun q =>
    if q.quote_id == quote_id && q.version == version then
      { q with
        followup_status := new_status
        next_followup_date := next_date
        last_contact_at := now }
    else q)

end Startup

/-! ## app.py - the in-memory MockDB variant -/

namespace MockDb

/-- One item dict of a MockDB quote:
`{id, desc, qty, price, cost, type}`. -/
structure Item where
  id : String
  desc : String
  qty : ℚ
  price : ℚ
  cost : ℚ
  type : String
deriving DecidableEq

/-- One quote dict held in `MockDB.quotes`, with the keys `save_quote`
guarantees. -/
structure Quote where
  id : String
  customer_id : Option String
  customer_name : String
  address : String
  status : String
  created_at : String
  tech : String
  items : List Item
  total : ℚ
  followup_date : Option String
  job_date : Option String
  job_window : Option String
  notes : String
deriving DecidableEq

/-- The `state` dict passed to `MockDB.save_quote`. `none` stands for an
absent key (or a `None` value, which `setdefault` treats the same way for the
optional date/window keys). -/
structure SaveInput where
  id : Option String
  customer_id : Option String
  customer_name : Option String
  address : Option String
  status : Option String
  created_at : Option String
  tech : Option String
  items : Option (List Item)
  followup_date : Option String
  job_date : Option String
  job_window : Option String
  notes : Option String
deriving DecidableEq

/-- `int(q["id"].split("-")[1])` of `MockDB._next_quote_id`, yielding nothing
when the split has no second part or it is not a number (the `except:
continue`). -/
def parseQuoteNum (s : String) : Option ℕ :=
  match s.splitOn "-" with
  | _ :: num :: _ => num.toNat?
  | _ => none

/-- `MockDB._next_quote_id`: `"Q-1001"` on an empty store, else
`"Q-" ++ (max(nums + [1000]) + 1)` over the parsable ids. -/
def next_quote_id (quotes : List Quote) : String :=
  if quotes.isEmpty then "Q-1001"
  else "Q-" ++ toString ((quotes.filterMap (fun q => parseQuoteNum q.id)).foldl max 1000 + 1)

/-- `MockDB.save_quote`: upsert. A missing/empty/`"Q-NEW"` id means a new
quote (fresh id, `created_at` defaulted to today); the mandatory keys are
defaulted; `total` is recomputed as `Σ qty·price` over the current items;
finally the dict replaces the stored quote with the same id, or is appended.
Returns the normalized quote and the new store. -/
def save_quote (today : String) (st : SaveInput) (quotes : List Quote) :
    Quote × List Quote :=
  let isNew := match st.id with
    | none => true
    | some s => s == "" || s == "Q-NEW"
  let qid := if isNew then next_quote_id quotes else st.id.getD ""
  let items := st.items.getD []
  let q : Quote :=
    { id := qid
      customer_id := st.customer_id
      customer_name := st.customer_name.getD ""
      address := st.address.getD ""
      status := st.status.getD "Draft"
      created_at := st.created_at.getD today
      tech := st.tech.getD "Elliott"
      items := items
      total := (items.map (fun i => i.qty * i.price)).sum
      followup_date := st.followup_date
      job_date := st.job_date
      job_window := st.job_window
      notes := st.notes.getD "" }
  match quotes.findIdx? (fun x => x.id == qid) with
  | some i => (q, quotes.set i q)
  | none => (q, quotes ++ [q])

end MockDb

/-! ## JobConversion (spec §4.3) - no code under src/ -/

/-- Replace the first element satisfying `p` by its image under `f`, leaving
the rest of the list untouched (the effect of an UPDATE of the single row the
conversion found). -/
def updateFirst {α : Type} (p : α → Bool) (f : α → α) : List α → List α
  | [] => []
  | x :: xs => if p x then f x :: xs else x :: updateFirst p f xs

namespace Conv

/-- Modelled from the spec: Job status values (§3), in lifecycle order
`New | Approved | Scheduled | InProgress | Complete`. -/
inductive JobStatus where
  | new
  | approved
  | scheduled
  | inProgress
  | complete
deriving DecidableEq

/-- Modelled from the spec: a LineItem (§3), owned by the quote or job that
contains it. -/
structure LineItem where
  id : String
  description : String
  kind : String
  quantity : ℚ
  unit_cost : ℚ
  unit_price : ℚ
deriving DecidableEq

/-- Modelled from the spec: the Quote fields `ensure_job_for_quote` reads
(§3, §4.3). -/
structure Quote where
  id : String
  customer_id : String
  status : String
  line_items : List LineItem
  total : ℚ
  notes : String
deriving DecidableEq

/-- Modelled from the spec: the Job fields JobConversion owns (§3, §4.3). -/
structure Job where
  id : String
  quote_id : Option String
  customer_id : String
  status : JobStatus
  line_items : List LineItem
  total : ℚ
  notes : String
deriving DecidableEq

/-- Modelled from the spec: `ensure_job_for_quote(quote) -> Job` (§4.3). The
JobConversion component has no code under `src/`; this follows the spec's
words. If no job carries `quote_id == quote.id`, one is created with
`status = Approved` and a snapshot of the quote's items/total; if one exists
and is still `New`/`Approved`, its `line_items`/`total`/`notes` are overwritten
from the quote; once `Scheduled` or later it is left untouched. `newId` is the
id a created job would get. -/
def ensure_job_for_quote (q : Quote) (newId : String) (jobs : List Job) :
    Job × List Job :=
  match jobs.find? (fun j => j.quote_id == some q.id) with
  | none =>
      let j : Job :=
        { id := newId
          quote_id := some q.id
          customer_id := q.customer_id
          status := .approved
          line_items := q.line_items
          total := q.total
          notes := q.notes }
      (j, jobs ++ [j])
  | some j =>
      if j.status = .new ∨ j.status = .approved then
        let j' : Job := { j with line_items := q.line_items, total := q.total, notes := q.notes }
        (j', TradeOps.updateFirst (fun x => x.quote_id == some q.id) (fun _ => j') jobs)
      else
        (j, jobs)

end Conv

/-! ## Concrete instances used to exercise the theorems -/

/-- A POST `/api/quotes` payload whose caller-supplied `total` (5) disagrees
with its own items (2 × 100 = 200). -/
def exStaleQuoteIn : MainApi.QuoteIn :=
  { customer_id := "C-1"
    items := [⟨"P-101", "16 SEER Condenser", 2, 100⟩]
    total := 5
    notes := "" }

/-- A job already dispatched: `Scheduled`, holding the pre-scheduling
snapshot. -/
def exJobScheduled : Conv.Job :=
  { id := "J-1"
    quote_id := some "Q-1"
    customer_id := "C-1"
    status := .scheduled
    line_items := [⟨"li-1", "16 SEER Condenser", "Material", 2, 40, 100⟩]
    total := 200
    notes := "" }

/-- The same quote after a post-scheduling edit to its line items. -/
def exQuoteEdited : Conv.Quote :=
  { id := "Q-1"
    customer_id := "C-1"
    status := "Approved"
    line_items := [⟨"li-1", "16 SEER Condenser", "Material", 2, 40, 100⟩,
                   ⟨"li-2", "Smart Thermostat", "Material", 1, 120, 350⟩]
    total := 550
    notes := "added thermostat" }

/-- A CRM quote in the undecided `'Open'` state, due for a follow-up call. -/
def exQuoteOpen : V3.Quote :=
  { quote_id := "Q1"
    customer_id := "C1"
    job_type := "Service"
    estimator := "Elliott"
    status := "Open"
    created_at := "2025-01-01"
    last_modified_at := "2025-01-01"
    next_followup_date := "2025-01-04"
    followup_status := "Needs Call"
    total_price := 200
    total_cost := 80
    margin_percent := 60 }

/-- A versioned quote of the `startup_db` variant, awaiting a follow-up. -/
def exQuoteStartup : Startup.Quote :=
  { quote_id := "Q2"
    version := 1
    client_name := "ACME Rentals"
    job_type := "Install"
    estimator := "Sarah"
    status := "Open"
    created_at := "2025-01-02"
    last_contact_at := "2025-01-02"
    next_followup_date := "2025-01-05"
    followup_status := "Needs Call"
    total_price := 1350
    total_cost := 600
    margin_percent := 55 }

/-- The customer the CRM quote belongs to. -/
def exCustomerV3 : V3.Customer :=
  { customer_id := "C1", name := "Burger King 402", phone := "555-0100" }

/-- A CRM database holding the one open quote and its customer. -/
def exDbOpen : V3.Db :=
  { customers := [exCustomerV3], quotes := [exQuoteOpen], quote_items := [] }

/-- A quote/job row of the `main.py` variant that a technician already
completed. -/
def exQuoteCompleted : MainApi.QuoteM :=
  { id := "Q-9"
    customer_id := "C-1"
    status := "Completed"
    created_at := "2025-01-01"
    items := []
    total := 150
    notes := "done"
    scheduled_date := some "2025-01-05"
    tech := some "mike" }

/-- A stored quote of the SQLAlchemy variant (two line items, totals
recorded). -/
def exQuoteA : Crud.QuoteA :=
  { id := "QA-1"
    account_id := "acct-demo-001"
    customer_id := "CU-1"
    title := "System replacement - 3 ton"
    status := "draft"
    total_price := 4600
    total_cost := 2400
    margin_percent := 48
    line_items := [⟨"material", some "AC-16SEER-3T", "16 SEER 3-ton condenser + coil",
                     some 1, some 1800, some 3200, 0⟩,
                   ⟨"labor", some "LAB-AC-INSTALL", "Install labor",
                     some 1, some 600, some 1400, 1⟩]
    created_at := 1
    updated_at := 1 }

/-- A `QuoteUpdate` payload that renames the quote but omits `line_items`. -/
def exUpdTitle : Crud.QuoteUpdate :=
  { title := some "System replacement - rev B", status := none, line_items := none }

end TradeOps

namespace TradeOps

/-- The loop of `_recalc_quote_totals` accumulates exactly the two sums
`Σ qty·unit_cost` and `Σ qty·unit_price` on top of the initial accumulator. -/
theorem foldl_recalcStep (l : List Crud.QuoteLineItem) (a b : ℚ) :
    l.foldl Crud.recalcStep (a, b) =
      (a + (l.map (fun li => Crud.pyOrZero li.qty * Crud.pyOrZero li.unit_cost)).sum,
       b + (l.map (fun li => Crud.pyOrZero li.qty * Crud.pyOrZero li.unit_price)).sum) := by
  induction l generalizing a b with
  | nil => simp
  | cons x xs ih =>
    simp only [List.foldl_cons, List.map_cons, List.sum_cons, ih, Crud.recalcStep,
      Prod.mk.injEq]
    constructor <;> ring

/-- C1: the pricing recomputation stores `total_price = Σ qtyᵢ·unit_priceᵢ`,
`total_cost = Σ qtyᵢ·unit_costᵢ`, and
`margin_percent = (total_price - total_cost)/total_price·100` when
`total_price > 0` and `0` otherwise - both in `crud._recalc_quote_totals`
(null columns read as `0`) and in the quote row written by
`tradeops_v3_db.save_new_quote`. -/
theorem recalc_quote_totals_formula :
    (∀ q : Crud.QuoteA,
      (Crud.recalc_quote_totals q).total_price
          = (q.line_items.map (fun li => Crud.pyOrZero li.qty * Crud.pyOrZero li.unit_price)).sum
      ∧ (Crud.recalc_quote_totals q).total_cost
          = (q.line_items.map (fun li => Crud.pyOrZero li.qty * Crud.pyOrZero li.unit_cost)).sum
      ∧ (Crud.recalc_quote_totals q).margin_percent
          = (if 0 < (Crud.recalc_quote_totals q).total_price then
              ((Crud.recalc_quote_totals q).total_price - (Crud.recalc_quote_totals q).total_cost)
                / (Crud.recalc_quote_totals q).total_price * 100
             else 0))
    ∧ (∀ (qid now cid jt est : String) (items : List V3.Item) (db : V3.Db),
        ∃ r, (V3.save_new_quote qid now cid jt est items db).quotes.getLast? = some r
          ∧ r.total_price = (items.map (fun i => i.price * i.qty)).sum
          ∧ r.total_cost = (items.map (fun i => i.cost * i.qty)).sum
          ∧ r.margin_percent
              = (if 0 < r.total_price then
                  (r.total_price - r.total_cost) / r.total_price * 100
                 else 0)) := by
  constructor
  · intro q
    refine ⟨?_, ?_, ?_⟩ <;>
      simp only [Crud.recalc_quote_totals, foldl_recalcStep, zero_add]
  · intro qid now cid jt est items db
    exact ⟨_, List.getLast?_concat _, rfl, rfl, rfl⟩

/-! ### Generic list helpers -/

/-- An UPDATE keyed on `p` commutes with looking the row up by `p`, provided
the update preserves the key. -/
theorem find?_map_ite {α : Type} (p : α → Bool) (f : α → α)
    (hf : ∀ x, p (f x) = p x) :
    ∀ l : List α, (l.map (fun x => if p x then f x else x)).find? p = (l.find? p).map f := by
  intro l
  induction l with
  | nil => rfl
  | cons x xs ih =>
    by_cases hx : p x
    · simp [List.find?_cons, hx, hf]
    · simp only [List.map_cons, if_neg hx, List.find?_cons]
      simp only [Bool.not_eq_true] at hx
      rw [hx]
      exact ih

/-- An UPDATE whose WHERE clause matches no row leaves the table unchanged. -/
theorem map_ite_of_find?_none {α : Type} {p : α → Bool} (f : α → α) {l : List α}
    (h : l.find? p = none) :
    l.map (fun x => if p x then f x else x) = l := by
  rw [List.find?_eq_none] at h
  induction l with
  | nil => rfl
  | cons x xs ih =>
    have hx : p x = false := by
      have := h x (List.mem_cons_self x xs)
      simpa using this
    simp only [List.map_cons, hx, Bool.false_eq_true, if_false, List.cons.injEq, true_and]
    exact ih (fun a ha => h a (List.mem_cons_of_mem x ha))

/-- Rows an UPDATE keyed on `p` does not match survive unchanged. -/
theorem mem_map_ite_of_neg {α : Type} {p : α → Bool} (f : α → α) {x : α} {l : List α}
    (hx : x ∈ l) (hpx : p x = false) :
    x ∈ l.map (fun y => if p y then f y else y) := by
  have : (if p x then f x else x) = x := by rw [hpx]; rfl
  simpa [this] using List.mem_map_of_mem (fun y => if p y then f y else y) hx

/-- `findIdx?` only returns indices inside the list. -/
theorem lt_length_of_findIdx? {α : Type} {p : α → Bool} {l : List α} {i : ℕ}
    (h : l.findIdx? p = some i) : i < l.length :=
  (List.findIdx?_eq_some_iff_getElem.mp h).1

/-- `updateFirst` distributes past a prefix with no match. -/
theorem updateFirst_append_none {α : Type} {p : α → Bool} (f : α → α)
    {l₁ : List α} (h : l₁.find? p = none) (l₂ : List α) :
    updateFirst p f (l₁ ++ l₂) = l₁ ++ updateFirst p f l₂ := by
  rw [List.find?_eq_none] at h
  induction l₁ with
  | nil => rfl
  | cons x xs ih =>
    have hx : p x = false := by
      have := h x (List.mem_cons_self x xs)
      simpa using this
    simp only [List.cons_append, updateFirst, hx, Bool.false_eq_true, if_false,
      List.cons.injEq, true_and]
    exact ih (fun a ha => h a (List.mem_cons_of_mem x ha))

/-- After replacing the first `p`-match by the `p`-element `y`, looking up by
`p` finds `y`. -/
theorem find?_updateFirst_const {α : Type} {p : α → Bool} {y : α} (hy : p y = true) :
    ∀ {l : List α} {j : α}, l.find? p = some j →
      (updateFirst p (fun _ => y) l).find? p = some y := by
  intro l
  induction l with
  | nil => intro j h; cases h
  | cons x xs ih =>
    intro j h
    by_cases hx : p x
    · simp [updateFirst, hx, List.find?_cons, hy]
    · simp only [Bool.not_eq_true] at hx
      simp only [List.find?_cons, hx] at h
      simp only [updateFirst, hx, Bool.false_eq_true, if_false, List.find?_cons]
      exact ih h

/-- Replacing the first `p`-match by a fixed `p`-element is idempotent. -/
theorem updateFirst_const_idem {α : Type} {p : α → Bool} {y : α} (hy : p y = true) :
    ∀ l : List α,
      updateFirst p (fun _ => y) (updateFirst p (fun _ => y) l) = updateFirst p (fun _ => y) l := by
  intro l
  induction l with
  | nil => rfl
  | cons x xs ih =>
    by_cases hx : p x
    · simp [updateFirst, hx, hy]
    · simp only [Bool.not_eq_true] at hx
      simp only [updateFirst, hx, Bool.false_eq_true, if_false, List.cons.injEq, true_and]
      exact ih

/-- Replacing the first `p`-match by a `p`-element keeps the number of
`p`-matches. -/
theorem countP_updateFirst_const {α : Type} {p : α → Bool} {y : α} (hy : p y = true) :
    ∀ l : List α, (updateFirst p (fun _ => y) l).countP p = l.countP p := by
  intro l
  induction l with
  | nil => rfl
  | cons x xs ih =>
    by_cases hx : p x
    · simp [updateFirst, hx, List.countP_cons, hy]
    · simp only [Bool.not_eq_true] at hx
      simp only [updateFirst, hx, Bool.false_eq_true, if_false, List.countP_cons, ih]

end TradeOps

namespace TradeOps

/-! ### C2 / C3 - JobConversion -/

/-- C2: `ensure_job_for_quote` is idempotent on an unchanged quote: the second
call returns the same job and the same job table, and after the first call the
table holds exactly `max n 1` jobs for the quote (so exactly one when at most
one - in particular zero - existed before, and a second job is never
created). -/
theorem ensure_job_for_quote_idempotent (q : Conv.Quote) (jobs : List Conv.Job)
    (id1 id2 : String) :
    Conv.ensure_job_for_quote q id2 (Conv.ensure_job_for_quote q id1 jobs).2
        = Conv.ensure_job_for_quote q id1 jobs
    ∧ (Conv.ensure_job_for_quote q id1 jobs).2.countP
          (fun j => j.quote_id == some q.id)
        = max (jobs.countP (fun j => j.quote_id == some q.id)) 1 := by
  cases h : jobs.find? (fun j => j.quote_id == some q.id) with
  | none =>
    have hcount0 : jobs.countP (fun j => j.quote_id == some q.id) = 0 := by
      rw [List.countP_eq_zero]
      exact List.find?_eq_none.mp h
    constructor
    · simp only [Conv.ensure_job_for_quote, h]
      simp only [List.find?_append, h, Option.none_or, List.find?_cons,
        beq_self_eq_true]
      simp only [or_true, if_true]
      rw [updateFirst_append_none _ h]
      simp [updateFirst]
    · simp only [Conv.ensure_job_for_quote, h]
      simp [hcount0]
  | some j =>
    have hpj : (j.quote_id == some q.id) = true := by
      simpa using List.find?_some (p := fun x : Conv.Job => x.quote_id == some q.id) h
    have hmem : j ∈ jobs := List.mem_of_find?_eq_some h
    have hpos : 0 < jobs.countP (fun j => j.quote_id == some q.id) :=
      List.countP_pos_iff.mpr ⟨j, hmem, hpj⟩
    have hmax : max (jobs.countP (fun j => j.quote_id == some q.id)) 1
        = jobs.countP (fun j => j.quote_id == some q.id) :=
      Nat.max_eq_left hpos
    by_cases hs : j.status = .new ∨ j.status = .approved
    · constructor
      · simp only [Conv.ensure_job_for_quote, h, if_pos hs]
        have hfind2 := find?_updateFirst_const
          (p := fun x => x.quote_id == some q.id)
          (y := { j with line_items := q.line_items, total := q.total, notes := q.notes })
          hpj h
        simp only [hfind2, if_pos hs]
        rw [updateFirst_const_idem
          (p := fun x : Conv.Job => x.quote_id == some q.id)
          (y := { j with line_items := q.line_items, total := q.total, notes := q.notes })
          hpj]
      · simp only [Conv.ensure_job_for_quote, h, if_pos hs]
        rw [countP_updateFirst_const
          (p := fun x : Conv.Job => x.quote_id == some q.id)
          (y := { j with line_items := q.line_items, total := q.total, notes := q.notes })
          hpj, hmax]
    · constructor
      · simp only [Conv.ensure_job_for_quote, h, if_neg hs]
      · simp only [Conv.ensure_job_for_quote, h, if_neg hs, hmax]

/-- C3: once the job attached to a quote is `Scheduled` (or further along),
`ensure_job_for_quote` run after any edit of that quote leaves the whole job
table - in particular the job's `line_items` and `total` - untouched. -/
theorem ensure_job_sync_cutoff (q : Conv.Quote) (jobs : List Conv.Job)
    (newId : String) (j : Conv.Job)
    (hfind : jobs.find? (fun x => x.quote_id == some q.id) = some j)
    (hstat : j.status = .scheduled ∨ j.status = .inProgress ∨ j.status = .complete) :
    Conv.ensure_job_for_quote q newId jobs = (j, jobs) := by
  have hne : ¬(j.status = .new ∨ j.status = .approved) := by
    rcases hstat with h | h | h <;> simp [h]
  simp only [Conv.ensure_job_for_quote, hfind, if_neg hne]

/-- C3, exercised: a quote edited after its job was scheduled; the conversion
leaves the scheduled job (and its snapshot) untouched. -/
theorem ensure_job_sync_cutoff_witness :
    Conv.ensure_job_for_quote exQuoteEdited "J-2" [exJobScheduled]
      = (exJobScheduled, [exJobScheduled]) :=
  ensure_job_sync_cutoff exQuoteEdited [exJobScheduled] "J-2" exJobScheduled
    (by decide) (Or.inl rfl)

end TradeOps

namespace TradeOps

/-! ### C4 - totals at persistence time -/

/-- C4 counterexample: `main.save_quote` persists the caller-supplied total
verbatim. With one line item `2 × $100` and a payload total of `5`, the stored
quote has `total = 5` while recomputing from its own stored items gives `200`:
a total not recomputed from the current line items is persisted. -/
theorem main_save_quote_stale_total_counterexample :
    (MainApi.save_quote "Q-1" "2025-01-10" exStaleQuoteIn []).map MainApi.QuoteM.total = [5]
    ∧ ((MainApi.save_quote "Q-1" "2025-01-10" exStaleQuoteIn []).map
        (fun r => (r.items.map (fun i => (i.qty : ℚ) * i.price)).sum)) = [200]
    ∧ (5 : ℚ) ≠ 200 := by
  refine ⟨rfl, ?_, by norm_num⟩
  simp only [MainApi.save_quote, exStaleQuoteIn, List.nil_append, List.map_cons,
    List.map_nil, List.sum_cons, List.sum_nil]
  norm_num

/-- C4 (amended): `MockDB.save_quote` (app.py) recomputes `total = Σ qty·price`
from the document's current items before storing it, and stores that very
document; `main.py`'s `save_quote`, by contrast, persists the caller-supplied
`total` verbatim alongside the items, with no recomputation. -/
theorem save_quote_totals_behavior :
    (∀ (today : String) (st : MockDb.SaveInput) (quotes : List MockDb.Quote),
        (MockDb.save_quote today st quotes).1.total
            = ((MockDb.save_quote today st quotes).1.items.map (fun i => i.qty * i.price)).sum
        ∧ (MockDb.save_quote today st quotes).1 ∈ (MockDb.save_quote today st quotes).2)
    ∧ (∀ (newId today : String) (q : MainApi.QuoteIn) (db : List MainApi.QuoteM),
        ∃ r, (MainApi.save_quote newId today q db).getLast? = some r
          ∧ r.total = q.total ∧ r.items = q.items) := by
  constructor
  · intro today st quotes
    cases hidx : quotes.findIdx? (fun x =>
        x.id == (if (match st.id with
                    | none => true
                    | some s => s == "" || s == "Q-NEW") then
                  MockDb.next_quote_id quotes
                else st.id.getD "")) with
    | none =>
      constructor
      · simp only [MockDb.save_quote, hidx]
      · simp only [MockDb.save_quote, hidx]
        exact List.mem_append_right _ (List.mem_singleton_self _)
    | some i =>
      constructor
      · simp only [MockDb.save_quote, hidx]
      · simp only [MockDb.save_quote, hidx]
        exact List.mem_set quotes i (lt_length_of_findIdx? hidx) _
  · intro newId today q db
    exact ⟨_, List.getLast?_concat db, rfl, rfl⟩

end TradeOps

namespace TradeOps

/-! ### C5 - follow-up interaction logging -/

/-- C5 counterexample: logging a `Won` outcome does not set the quote's
status to `Approved`. In the cited `tradeops_v3_db.log_interaction` the UPDATE
does not even prepare - its SET clause names `last_contact_at`, a column the
v3 `quotes` table lacks - so the call raises `sqlite3.OperationalError` and
writes nothing: the quote keeps status `'Open'` and even its
`followup_status` stays `'Needs Call'`. -/
theorem log_interaction_won_counterexample :
    V3.log_interaction "Q1" "Won" "2025-01-20" exDbOpen
        = .operationalError "no such column: last_contact_at"
    ∧ exQuoteOpen.status = "Open"
    ∧ exQuoteOpen.followup_status = "Needs Call"
    ∧ "Open" ≠ "Approved" := by
  refine ⟨by decide, rfl, rfl, by decide⟩

/-- C5 (amended): in `tradeops_v3_db`, every `log_interaction` call fails with
`OperationalError` (`last_contact_at` is absent from its own `quotes` schema)
and writes nothing. In `startup_db`, whose schema does carry the column,
`update_followup` sets `followup_status` to the outcome and updates
`next_followup_date` and `last_contact_at` on the `(quote_id, version)` row it
addresses, leaving every other row untouched; the quote's `status` is not
written for **any** outcome - `Won` does not set `Approved` and `Lost` does
not set `Declined` in either variant. -/
theorem log_interaction_behavior (now qid outcome nextDate : String) (ver : ℤ)
    (db : V3.Db) (sdb : List Startup.Quote) (q : Startup.Quote)
    (hfind : sdb.find? (fun x => x.quote_id == qid && x.version == ver) = some q) :
    (V3.log_interaction qid outcome nextDate db
        = .operationalError "no such column: last_contact_at")
    ∧ ((Startup.update_followup now qid ver outcome nextDate sdb).find?
          (fun x => x.quote_id == qid && x.version == ver)
        = some { q with
                 followup_status := outcome
                 next_followup_date := nextDate
                 last_contact_at := now })
    ∧ (∀ x ∈ sdb, (x.quote_id == qid && x.version == ver) = false →
        x ∈ Startup.update_followup now qid ver outcome nextDate sdb)
    ∧ ({ q with
         followup_status := outcome
         next_followup_date := nextDate
         last_contact_at := now } : Startup.Quote).status = q.status := by
  refine ⟨rfl, ?_, ?_, rfl⟩
  · have h := find?_map_ite
      (p := fun x : Startup.Quote => x.quote_id == qid && x.version == ver)
      (f := fun x => { x with
                       followup_status := outcome
                       next_followup_date := nextDate
                       last_contact_at := now })
      (fun x => rfl) sdb
    simp only [Startup.update_followup]
    rw [h, hfind]
    rfl
  · intro x hx hpx
    simp only [Startup.update_followup]
    exact mem_map_ite_of_neg _ hx hpx

/-- C5, exercised: the v3 call errors; on the versioned `startup_db` row a
`Left VM` outcome reschedules the follow-up and leaves the status `'Open'`. -/
theorem log_interaction_behavior_witness :
    (V3.log_interaction "Q2" "Left VM" "2025-01-12" exDbOpen
        = .operationalError "no such column: last_contact_at")
    ∧ ((Startup.update_followup "2025-01-10" "Q2" 1 "Left VM" "2025-01-12"
          [exQuoteStartup]).find?
          (fun x => x.quote_id == "Q2" && x.version == 1)
        = some { exQuoteStartup with
                 followup_status := "Left VM"
                 next_followup_date := "2025-01-12"
                 last_contact_at := "2025-01-10" })
    ∧ ({ exQuoteStartup with
         followup_status := "Left VM"
         next_followup_date := "2025-01-12"
         last_contact_at := "2025-01-10" } : Startup.Quote).status
        = exQuoteStartup.status := by
  have h := log_interaction_behavior "2025-01-10" "Q2" "Left VM" "2025-01-12" 1 exDbOpen
    [exQuoteStartup] exQuoteStartup (by decide)
  exact ⟨h.1, h.2.1, h.2.2.2⟩

/-! ### C6 - dispatch assignment and status monotonicity -/

/-- C6 counterexample: `assign_job` on an already-`Completed` job moves its
status back to `Scheduled` - the advance is not guarded by
`status ∈ {New, Approved}` and a completed job is downgraded. -/
theorem assign_job_downgrade_counterexample :
    exQuoteCompleted.status = "Completed"
    ∧ ((MainApi.assign_job "Q-9" "tech" "2025-02-01" [exQuoteCompleted]).1.map
        MainApi.QuoteM.status = ["Scheduled"]) := by
  exact ⟨rfl, by decide⟩

/-- C6 (amended): `assign_job` unconditionally sets `tech`, `scheduled_date`
and `status = 'Scheduled'` on the matching quote, whatever its current status
(`Completed`/`In Progress` included, which are moved backwards); non-matching
rows are untouched and the endpoint reports success. -/
theorem assign_job_behavior (quote_id tech date : String)
    (db : List MainApi.QuoteM) (q : MainApi.QuoteM)
    (hfind : db.find? (fun x => x.id == quote_id) = some q) :
    ((MainApi.assign_job quote_id tech date db).1.find? (fun x => x.id == quote_id)
      = some { q with
               tech := some tech
               scheduled_date := some date
               status := "Scheduled" })
    ∧ (∀ x ∈ db, (x.id == quote_id) = false →
        x ∈ (MainApi.assign_job quote_id tech date db).1)
    ∧ (MainApi.assign_job quote_id tech date db).2 = "success" := by
  refine ⟨?_, ?_, rfl⟩
  · have h := find?_map_ite (p := fun x : MainApi.QuoteM => x.id == quote_id)
      (f := fun x => { x with
                       tech := some tech
                       scheduled_date := some date
                       status := "Scheduled" })
      (fun x => rfl) db
    simp only [MainApi.assign_job]
    rw [h, hfind]
    rfl
  · intro x hx hpx
    simp only [MainApi.assign_job]
    exact mem_map_ite_of_neg _ hx hpx

/-- C6, exercised on the completed job: after assignment the stored row is
`Scheduled` with the new tech and date. -/
theorem assign_job_behavior_witness :
    (MainApi.assign_job "Q-9" "tech" "2025-02-01" [exQuoteCompleted]).1.find?
        (fun x => x.id == "Q-9")
      = some { exQuoteCompleted with
               tech := some "tech"
               scheduled_date := some "2025-02-01"
               status := "Scheduled" } :=
  (assign_job_behavior "Q-9" "tech" "2025-02-01" [exQuoteCompleted] exQuoteCompleted
    (by decide)).1

end TradeOps

namespace TradeOps

/-! ### C7 - follow-up queue contents and order -/

/-- C7 counterexample: the queue's entries carry status `'Open'` - the
undecided status of this variant - not `Draft` or `Sent`; the claim's "contains
only quotes whose status is Draft or Sent" fails on the very first queue
entry. -/
theorem followup_queue_open_counterexample :
    (V3.get_followup_queue exDbOpen).map (fun e => e.1.status) = ["Open"]
    ∧ "Open" ≠ "Draft" ∧ "Open" ≠ "Sent" := by
  refine ⟨by decide, by decide, by decide⟩

/-- C7 (amended): every entry of `get_followup_queue` is a quote of the
database whose status is exactly `'Open'` - in particular never `Approved` and
never `Declined` - and the queue is ordered by `next_followup_date`
ascending. -/
theorem followup_queue_behavior (db : V3.Db) :
    (∀ e ∈ V3.get_followup_queue db,
        e.1.status = "Open"
        ∧ e.1.status ≠ "Approved"
        ∧ e.1.status ≠ "Declined"
        ∧ e.1 ∈ db.quotes)
    ∧ (V3.get_followup_queue db).Pairwise V3.fupLe := by
  constructor
  · intro e he
    simp only [V3.get_followup_queue] at he
    rw [List.mem_insertionSort] at he
    rw [List.mem_filter] at he
    obtain ⟨hj, hst⟩ := he
    have hstatus : e.1.status = "Open" := eq_of_beq hst
    refine ⟨hstatus, by rw [hstatus]; decide, by rw [hstatus]; decide, ?_⟩
    rw [List.mem_filterMap] at hj
    obtain ⟨q, hq, hmap⟩ := hj
    obtain ⟨c, _, hec⟩ := Option.map_eq_some'.mp hmap
    rw [← hec]
    exact hq
  · simp only [V3.get_followup_queue]
    exact List.sorted_insertionSort V3.fupLe _

/-- C7, exercised on the database with one open quote: the queue entry is that
quote, with status `'Open'`, hence neither `Approved` nor `Declined`. -/
theorem followup_queue_behavior_witness :
    exQuoteOpen.status = "Open"
    ∧ exQuoteOpen.status ≠ "Approved"
    ∧ exQuoteOpen.status ≠ "Declined"
    ∧ exQuoteOpen ∈ exDbOpen.quotes := by
  have h := (followup_queue_behavior exDbOpen).1 (exQuoteOpen, exCustomerV3) (by decide)
  exact h

end TradeOps

namespace TradeOps

/-! ### C8 / C10 - quote update behavior -/

/-- `apply_update` never changes the primary key. -/
theorem apply_update_id (now : ℕ) (data : Crud.QuoteUpdate) (q : Crud.QuoteA) :
    (Crud.apply_update now data q).id = q.id := by
  obtain ⟨t, s, li⟩ := data
  cases t <;> cases s <;> cases li <;>
    (simp only [Crud.apply_update]; split <;> rfl)

/-- With `line_items` omitted, `apply_update` only rewrites `title`/`status`
(when supplied) and, when that actually changed the row, `updated_at`. -/
theorem apply_update_items_none (now : ℕ) (data : Crud.QuoteUpdate) (q : Crud.QuoteA)
    (h : data.line_items = none) :
    Crud.apply_update now data q =
      (if ({ q with
             title := data.title.getD q.title
             status := data.status.getD q.status } : Crud.QuoteA) = q
       then q
       else { q with
              title := data.title.getD q.title
              status := data.status.getD q.status
              updated_at := now }) := by
  obtain ⟨t, s, li⟩ := data
  cases li with
  | some l => simp at h
  | none => cases t <;> cases s <;> rfl

/-- C8 (amended): when the quote id is absent, `crud.update_quote` returns
`None` with the table untouched and `main.py`'s status endpoint is a no-op
that still answers `"updated"` - neither raises a `NotFoundError`; when the
id is present, the status is set on the returned and stored row, the items are
untouched, and `updated_at` is refreshed whenever the row actually changed. -/
theorem set_status_behavior (now : ℕ) (qid st : String)
    (db : List Crud.QuoteA) (mdb : List MainApi.QuoteM) :
    (db.find? (fun x => x.id == qid) = none →
        Crud.update_quote now qid ⟨none, some st, none⟩ db = (none, db))
    ∧ (∀ q, db.find? (fun x => x.id == qid) = some q →
        ((Crud.update_quote now qid ⟨none, some st, none⟩ db).1.map Crud.QuoteA.status
            = some st)
        ∧ ((Crud.update_quote now qid ⟨none, some st, none⟩ db).1.map Crud.QuoteA.line_items
            = some q.line_items)
        ∧ ((Crud.update_quote now qid ⟨none, some st, none⟩ db).2.find?
              (fun x => x.id == qid)
            = (Crud.update_quote now qid ⟨none, some st, none⟩ db).1)
        ∧ ((Crud.update_quote now qid ⟨none, some st, none⟩ db).1.map Crud.QuoteA.updated_at
              = some now
            ∨ (Crud.update_quote now qid ⟨none, some st, none⟩ db).1 = some q))
    ∧ (MainApi.update_quote_status qid st mdb).2 = "updated"
    ∧ (mdb.find? (fun x => x.id == qid) = none →
        (MainApi.update_quote_status qid st mdb).1 = mdb) := by
  refine ⟨?_, ?_, rfl, ?_⟩
  · intro h
    simp only [Crud.update_quote, h]
  · intro q hq
    have happ := apply_update_items_none now ⟨none, some st, none⟩ q rfl
    have hfindmap := find?_map_ite (p := fun x : Crud.QuoteA => x.id == qid)
      (f := Crud.apply_update now ⟨none, some st, none⟩)
      (fun x => by simp only [apply_update_id]) db
    have hfields : (Crud.apply_update now ⟨none, some st, none⟩ q).status = st
        ∧ (Crud.apply_update now ⟨none, some st, none⟩ q).line_items = q.line_items
        ∧ ((Crud.apply_update now ⟨none, some st, none⟩ q).updated_at = now
            ∨ Crud.apply_update now ⟨none, some st, none⟩ q = q) := by
      by_cases hc : ({ q with
          title := ((none : Option String)).getD q.title
          status := (some st).getD q.status } : Crud.QuoteA) = q
      · have hu : Crud.apply_update now ⟨none, some st, none⟩ q = q := by
          rw [happ, if_pos hc]
        have hst : st = q.status := congrArg Crud.QuoteA.status hc
        rw [hu]
        exact ⟨hst.symm, rfl, Or.inr rfl⟩
      · have hu : Crud.apply_update now ⟨none, some st, none⟩ q
            = { q with
                title := ((none : Option String)).getD q.title
                status := (some st).getD q.status
                updated_at := now } := by
          rw [happ, if_neg hc]
        rw [hu]
        exact ⟨rfl, rfl, Or.inl rfl⟩
    refine ⟨?_, ?_, ?_, ?_⟩
    · simp only [Crud.update_quote, hq, Option.map_some']
      exact congrArg some hfields.1
    · simp only [Crud.update_quote, hq, Option.map_some']
      exact congrArg some hfields.2.1
    · simp only [Crud.update_quote, hq]
      rw [hfindmap, hq]
      rfl
    · simp only [Crud.update_quote, hq, Option.map_some']
      rcases hfields.2.2 with h | h
      · exact Or.inl (congrArg some h)
      · exact Or.inr (congrArg some h)
  · intro h
    simp only [MainApi.update_quote_status]
    exact map_ite_of_find?_none _ h

/-- C8 counterexample: on a database with no such quote, the status update of
`main.py` answers success with nothing changed, and `crud.update_quote`
returns `None` with nothing changed - no `NotFoundError` is raised
anywhere. -/
theorem set_status_missing_counterexample :
    MainApi.update_quote_status "Q-404" "Approved" [] = ([], "updated")
    ∧ Crud.update_quote 0 "Q-404" ⟨none, some "Approved", none⟩ [] = (none, []) :=
  ⟨rfl, rfl⟩

/-- C8, exercised: absent id ⇒ `(None, unchanged)`; present id ⇒ the returned
row carries the new status; `main.py` on an empty table changes nothing while
reporting `"updated"`. -/
theorem set_status_behavior_witness :
    Crud.update_quote 7 "QA-1" ⟨none, some "sent", none⟩ [] = (none, [])
    ∧ ((Crud.update_quote 7 "QA-1" ⟨none, some "sent", none⟩ [exQuoteA]).1.map
        Crud.QuoteA.status = some "sent")
    ∧ (MainApi.update_quote_status "Q-404" "Approved" []).1 = [] := by
  refine ⟨(set_status_behavior 7 "QA-1" "sent" [] []).1 rfl,
          ((set_status_behavior 7 "QA-1" "sent" [exQuoteA] []).2.1 exQuoteA (by decide)).1,
          (set_status_behavior 7 "Q-404" "Approved" [] []).2.2.2 rfl⟩

/-! ### C9 - create_quote status initialization -/

/-- C9: `crud.create_quote` evaluates `data.status or "draft"`, but
`schemas.QuoteCreate` declares no `status` field, so every call raises
`AttributeError('status')` and no quote is created at all - the intended
`Draft` default (which `main.py`'s create path does apply, below) can never
execute. -/
theorem create_quote_attribute_error :
    (∀ (a n : String) (t : ℕ) (d : Crud.QuoteCreate),
        Crud.create_quote a n t d = .attributeError "status")
    ∧ (∀ (newId today : String) (q : MainApi.QuoteIn) (db : List MainApi.QuoteM),
        ∃ r, (MainApi.save_quote newId today q db).getLast? = some r
          ∧ r.status = "Draft") := by
  constructor
  · intro a n t d
    rfl
  · intro newId today q db
    exact ⟨_, List.getLast?_concat db, rfl⟩

/-! ### C10 - update_quote with line_items omitted -/

/-- C10: `crud.update_quote` called without `line_items` leaves the stored
line items, `total_price`, `total_cost` and `margin_percent` (and the identity
and creation columns) of the quote unchanged; only `title`/`status` - when
supplied - are rewritten (plus `updated_at` via the ORM), and every other
quote row is untouched. -/
theorem update_quote_frame (now : ℕ) (qid : String) (data : Crud.QuoteUpdate)
    (db : List Crud.QuoteA) (q : Crud.QuoteA)
    (hitems : data.line_items = none)
    (hfind : db.find? (fun x => x.id == qid) = some q) :
    ((Crud.update_quote now qid data db).1.map Crud.QuoteA.line_items = some q.line_items)
    ∧ ((Crud.update_quote now qid data db).1.map Crud.QuoteA.total_price = some q.total_price)
    ∧ ((Crud.update_quote now qid data db).1.map Crud.QuoteA.total_cost = some q.total_cost)
    ∧ ((Crud.update_quote now qid data db).1.map Crud.QuoteA.margin_percent
        = some q.margin_percent)
    ∧ ((Crud.update_quote now qid data db).1.map Crud.QuoteA.id = some q.id)
    ∧ ((Crud.update_quote now qid data db).1.map Crud.QuoteA.customer_id
        = some q.customer_id)
    ∧ ((Crud.update_quote now qid data db).1.map Crud.QuoteA.created_at
        = some q.created_at)
    ∧ ((Crud.update_quote now qid data db).1.map Crud.QuoteA.title
        = some (data.title.getD q.title))
    ∧ ((Crud.update_quote now qid data db).1.map Crud.QuoteA.status
        = some (data.status.getD q.status))
    ∧ ((Crud.update_quote now qid data db).2.find? (fun x => x.id == qid)
        = (Crud.update_quote now qid data db).1)
    ∧ (∀ x ∈ db, (x.id == qid) = false → x ∈ (Crud.update_quote now qid data db).2) := by
  have happ := apply_update_items_none now data q hitems
  have hfindmap := find?_map_ite (p := fun x : Crud.QuoteA => x.id == qid)
    (f := Crud.apply_update now data)
    (fun x => by simp only [apply_update_id]) db
  have hfields : (Crud.apply_update now data q).line_items = q.line_items
      ∧ (Crud.apply_update now data q).total_price = q.total_price
      ∧ (Crud.apply_update now data q).total_cost = q.total_cost
      ∧ (Crud.apply_update now data q).margin_percent = q.margin_percent
      ∧ (Crud.apply_update now data q).id = q.id
      ∧ (Crud.apply_update now data q).customer_id = q.customer_id
      ∧ (Crud.apply_update now data q).created_at = q.created_at
      ∧ (Crud.apply_update now data q).title = data.title.getD q.title
      ∧ (Crud.apply_update now data q).status = data.status.getD q.status := by
    by_cases hc : ({ q with
        title := data.title.getD q.title
        status := data.status.getD q.status } : Crud.QuoteA) = q
    · have hu : Crud.apply_update now data q = q := by rw [happ, if_pos hc]
      have htitle : data.title.getD q.title = q.title := congrArg Crud.QuoteA.title hc
      have hstatus : data.status.getD q.status = q.status := congrArg Crud.QuoteA.status hc
      rw [hu]
      exact ⟨rfl, rfl, rfl, rfl, rfl, rfl, rfl, htitle.symm, hstatus.symm⟩
    · have hu : Crud.apply_update now data q
          = { q with
              title := data.title.getD q.title
              status := data.status.getD q.status
              updated_at := now } := by rw [happ, if_neg hc]
      rw [hu]
      exact ⟨rfl, rfl, rfl, rfl, rfl, rfl, rfl, rfl, rfl⟩
  refine ⟨?_, ?_, ?_, ?_, ?_, ?_, ?_, ?_, ?_, ?_, ?_⟩
  · simp only [Crud.update_quote, hfind, Option.map_some']
    exact congrArg some hfields.1
  · simp only [Crud.update_quote, hfind, Option.map_some']
    exact congrArg some hfields.2.1
  · simp only [Crud.update_quote, hfind, Option.map_some']
    exact congrArg some hfields.2.2.1
  · simp only [Crud.update_quote, hfind, Option.map_some']
    exact congrArg some hfields.2.2.2.1
  · simp only [Crud.update_quote, hfind, Option.map_some']
    exact congrArg some hfields.2.2.2.2.1
  · simp only [Crud.update_quote, hfind, Option.map_some']
    exact congrArg some hfields.2.2.2.2.2.1
  · simp only [Crud.update_quote, hfind, Option.map_some']
    exact congrArg some hfields.2.2.2.2.2.2.1
  · simp only [Crud.update_quote, hfind, Option.map_some']
    exact congrArg some hfields.2.2.2.2.2.2.2.1
  · simp only [Crud.update_quote, hfind, Option.map_some']
    exact congrArg some hfields.2.2.2.2.2.2.2.2
  · simp only [Crud.update_quote, hfind]
    rw [hfindmap, hfind]
    rfl
  · intro x hx hpx
    simp only [Crud.update_quote, hfind]
    exact mem_map_ite_of_neg _ hx hpx

/-- C10, exercised: renaming the stored quote without supplying `line_items`
keeps its items and all three totals, and applies the new title. -/
theorem update_quote_frame_witness :
    ((Crud.update_quote 7 "QA-1" exUpdTitle [exQuoteA]).1.map Crud.QuoteA.line_items
        = some exQuoteA.line_items)
    ∧ ((Crud.update_quote 7 "QA-1" exUpdTitle [exQuoteA]).1.map Crud.QuoteA.total_price
        = some exQuoteA.total_price)
    ∧ ((Crud.update_quote 7 "QA-1" exUpdTitle [exQuoteA]).1.map Crud.QuoteA.total_cost
        = some exQuoteA.total_cost)
    ∧ ((Crud.update_quote 7 "QA-1" exUpdTitle [exQuoteA]).1.map Crud.QuoteA.margin_percent
        = some exQuoteA.margin_percent)
    ∧ ((Crud.update_quote 7 "QA-1" exUpdTitle [exQuoteA]).1.map Crud.QuoteA.title
        = some (exUpdTitle.title.getD exQuoteA.title)) := by
  have h := update_quote_frame 7 "QA-1" exUpdTitle [exQuoteA] exQuoteA rfl (by decide)
  exact ⟨h.1, h.2.1, h.2.2.1, h.2.2.2.1, h.2.2.2.2.2.2.2.1⟩

end TradeOps
